import Mathlib

/-!
Shallow embedding of the publish pipeline of sasquatch-backpack
(src/sasquatchbackpack/sasquatch.py), covering the `BackpackDispatcher`
class: `_get_topic_exists`, `_handle_topic_exists`, `_post_new_topic`,
`_get_source_records` and `post`, together with the `DataSource` contract
and the Redis membership cache consulted by `_get_source_records`.

HTTP calls made with the `requests` library are modelled by oracles in a
`Network` structure: each oracle yields either a decoded JSON body (the
2xx, `raise_for_status`-passing, `.json()`-parsed case) or the string
rendering of a `requests.RequestException`.  Subscripting a decoded JSON
value follows Python semantics: a missing dictionary key raises
`KeyError`, indexing an empty list raises `IndexError`, subscripting a
non-container raises `TypeError`; these exceptions are *not* caught by
the dispatcher (its handlers name only `requests.RequestException`), so
they travel through the embedding in an `Except PyExn` result.

A central fact captured by the embedding: in `post` (sasquatch.py line
340) the local name `requests` is rebound to `response["requests"]`, a
plain dict, shadowing the imported `requests` module for the rest of the
function body.  The delivery call at line 391, `requests.request("POST",
...)`, is therefore an attribute lookup on a dict and raises
`AttributeError`; the handler `except requests.RequestException` at line
401 evaluates the same dict attribute and cannot match.  Consequently
every invocation of `post` that reaches the delivery step raises, and
lines 392-416 (the delivery response handling, the cache commit loop and
the success report) are unreachable.
-/

namespace SasquatchBackpack

/-- JSON values as produced by `response.json()`. -/
inductive Json where
  | null : Json
  | bool : Bool → Json
  | num : Int → Json
  | str : String → Json
  | arr : List Json → Json
  | obj : List (String × Json) → Json

/-- Python exceptions that the dispatcher does not catch: `KeyError`,
`IndexError` and `TypeError` from subscripting decoded JSON, and the
`AttributeError` raised by an attribute lookup on the shadowed
`requests` name (payload: the attribute that was looked up). -/
inductive PyExn where
  | keyError : String → PyExn
  | indexError : PyExn
  | typeError : PyExn
  | attributeError : String → PyExn
deriving DecidableEq

/-- Python subscripting of a decoded JSON value by a string key:
`j[k]`.  A dict lookup returns the entry or raises `KeyError`; a string
key applied to a list, a string or a scalar raises `TypeError`. -/
def Json.getStr (j : Json) (k : String) : Except PyExn Json :=
  match j with
  | .obj fields =>
    match fields.lookup k with
    | some v => Except.ok v
    | none => Except.error (PyExn.keyError k)
  | _ => Except.error PyExn.typeError

/-- Python subscripting of a decoded JSON value by an integer index:
`j[i]`.  A list yields the element or raises `IndexError`; a dict raises
`KeyError` for the integer key; a string yields the one-character string
or raises `IndexError`; scalars raise `TypeError`. -/
def Json.getIdx (j : Json) (i : Nat) : Except PyExn Json :=
  match j with
  | .arr xs =>
    match xs.get? i with
    | some v => Except.ok v
    | none => Except.error PyExn.indexError
  | .obj _ => Except.error (PyExn.keyError (toString i))
  | .str s =>
    match s.toList.get? i with
    | some c => Except.ok (Json.str (String.singleton c))
    | none => Except.error PyExn.indexError
  | _ => Except.error PyExn.typeError

/-- Python iteration over a decoded JSON value (`for topic in topics`):
a list yields its elements, a dict yields its keys, a string yields its
characters, scalars raise `TypeError`. -/
def pyIter (j : Json) : Except PyExn (List Json) :=
  match j with
  | .arr xs => Except.ok xs
  | .obj fields => Except.ok (fields.map (fun p => Json.str p.1))
  | .str s => Except.ok (s.toList.map (fun c => Json.str (String.singleton c)))
  | _ => Except.error PyExn.typeError

/-- Python equality test between a decoded JSON value and a string
(`topic["topic_name"] == topic_name`): true exactly for that string,
false for every non-string value (no exception). -/
def pyEqStr (j : Json) (s : String) : Bool :=
  match j with
  | .str t => t == s
  | _ => false

/-- Outcome of one HTTP call made with the `requests` library:
`ok body` is a 2xx response that passed `raise_for_status` with its
`.json()` (or `.text`) payload; `exn e` is a `requests.RequestException`
(connection failure, timeout or non-2xx status) rendered as text by the
f-string in the corresponding handler. -/
inductive ReqResult (α : Type) where
  | ok : α → ReqResult α
  | exn : String → ReqResult α

/-- Oracles for the four remote endpoints the dispatcher touches:
`GET {base}/v3/clusters`, `GET {base}/v3/clusters/{id}/topics` (indexed
by the extracted `cluster_id` value), `POST {base}/v3/clusters/{id}/topics`
(topic creation, response `.text`), and the delivery
`POST {base}/topics/{namespace}.{topic_name}` (response `.text`).  The
delivery oracle is recorded for completeness: as explained in the file
header, `post` as written raises before ever consulting it. -/
structure Network where
  clusters : ReqResult Json
  topics : Json → ReqResult Json
  createTopic : Json → ReqResult String
  writeValues : ReqResult String

/-- The `DataSource` contract of sasquatch.py: a topic identifier, the
dedup flag, the batch returned by `get_records()` (fetch is idempotent
and side-effect free, so one list models it) and the per-record
`get_redis_key` derivation.  Records are opaque to the dispatcher. -/
structure DataSource (R : Type) where
  topic_name : String
  uses_redis : Bool
  get_records : List R
  get_redis_key : R → String

/-- One `{"status": ..., "message": ...}` step report. -/
structure StepReport where
  status : String
  message : String
deriving DecidableEq

/-- The `response["requests"]` dict of `post`: the three step-report
slots, each `none` while still the empty dict `{}`. -/
structure RequestReports where
  check_topic : Option StepReport
  create_topic : Option StepReport
  write_values : Option StepReport
deriving DecidableEq

/-- The `response` dict assembled by `post` (lines 331-339).  The field
`write_values_toplevel` models the stray top-level `response["write_values"]`
key that lines 402 and 412 would create (those lines write `response`,
not `response["requests"]`); both lines are unreachable, so the field
stays `none` in every reachable state. -/
structure Response (R : Type) where
  succeeded : Bool
  requests : RequestReports
  records : List R
  write_values_toplevel : Option StepReport
deriving DecidableEq

/-- The membership cache as observed through `RedisManager.get`: a key
is either present with its stored value or absent (`None`). -/
def Cache : Type := String → Option String

/-- `RedisManager.store key` with the default item `"value"`. -/
def redisStore (cache : Cache) (key : String) : Cache :=
  fun k => if k = key then some "value" else cache k

/-- The `r.json()["data"][0]["cluster_id"]` extraction shared by
`_get_topic_exists` (line 166) and `_post_new_topic` (line 240); each
subscript may raise, and the surrounding handlers catch only
`requests.RequestException`, so these exceptions propagate. -/
def clusterIdOf (body : Json) : Except PyExn Json :=
  match body.getStr "data" with
  | Except.error e => Except.error e
  | Except.ok d =>
    match d.getIdx 0 with
    | Except.error e => Except.error e
    | Except.ok first => first.getStr "cluster_id"

/-- The generator `any(topic["topic_name"] == topic_name for topic in
topics)` of line 186: elements are examined left to right, the first
match short-circuits to `True`, and a subscript failure on an examined
element propagates. -/
def anyTopicMatches (ts : List Json) (name : String) : Except PyExn Bool :=
  match ts with
  | [] => Except.ok false
  | t :: rest =>
    match t.getStr "topic_name" with
    | Except.error e => Except.error e
    | Except.ok v =>
      if pyEqStr v name then Except.ok true else anyTopicMatches rest name

/-- `BackpackDispatcher._get_topic_exists` (lines 147-186): looks up the
first cluster identifier, lists that cluster's topics and tests the
fully-qualified name `fq` for membership.  A `RequestException` from
either call becomes a string return value (`.inr`); malformed 2xx bodies
raise through the `Except` layer. -/
def getTopicExists (net : Network) (fq : String) : Except PyExn (Bool ⊕ String) :=
  match net.clusters with
  | ReqResult.exn e => Except.ok (Sum.inr ("Error getting cluster ID: " ++ e))
  | ReqResult.ok body =>
    match clusterIdOf body with
    | Except.error ex => Except.error ex
    | Except.ok cid =>
      match net.topics cid with
      | ReqResult.exn e => Except.ok (Sum.inr ("Error Creating Topic during POST: " ++ e))
      | ReqResult.ok tbody =>
        match tbody.getStr "data" with
        | Except.error ex => Except.error ex
        | Except.ok td =>
          match pyIter td with
          | Except.error ex => Except.error ex
          | Except.ok ts =>
            match anyTopicMatches ts fq with
            | Except.error ex => Except.error ex
            | Except.ok b => Except.ok (Sum.inl b)

/-- `BackpackDispatcher._handle_topic_exists` (lines 188-221): turns the
string error case into an `Error` `check_topic` report with a `None`
return, and the boolean case into a `Success` report naming the
fully-qualified topic. -/
def handleTopicExists (net : Network) (fq : String) :
    Except PyExn (Option Bool × StepReport) :=
  match getTopicExists net fq with
  | Except.error ex => Except.error ex
  | Except.ok (Sum.inr s) =>
    Except.ok (none, StepReport.mk "Error" ("Topic check failed: \n" ++ s))
  | Except.ok (Sum.inl b) =>
    Except.ok (some b, StepReport.mk "Success"
      ("Sasquatch backpack " ++ (if b then "found" else "did not find") ++
        " \"" ++ fq ++ "\" on remote."))

/-- `BackpackDispatcher._post_new_topic` (lines 223-270): cluster lookup
then a creation POST carrying the configured topic config; each
`RequestException` becomes an `Error` report, a 2xx creation response
becomes a `Success` report carrying `response.text`.  Malformed cluster
bodies raise. -/
def postNewTopic (net : Network) : Except PyExn StepReport :=
  match net.clusters with
  | ReqResult.exn e =>
    Except.ok (StepReport.mk "Error" ("Error getting cluster ID: " ++ e))
  | ReqResult.ok body =>
    match clusterIdOf body with
    | Except.error ex => Except.error ex
    | Except.ok cid =>
      match net.createTopic cid with
      | ReqResult.exn e =>
        Except.ok (StepReport.mk "Error" ("Error Creating Topic during POST: " ++ e))
      | ReqResult.ok text => Except.ok (StepReport.mk "Success" text)

/-- `BackpackDispatcher._get_source_records` (lines 272-300): `None` on
an empty fetch, the whole batch when `uses_redis` is false, otherwise
the records whose derived key is absent from the cache. -/
def getSourceRecords {R : Type} (src : DataSource R) (cache : Cache) :
    Option (List R) :=
  if src.get_records.length = 0 then none
  else if !src.uses_redis then some src.get_records
  else some (src.get_records.filter
    (fun r => (cache (src.get_redis_key r)).isNone))

/-- The bypass report of lines 352-358. -/
def bypassReport : StepReport :=
  StepReport.mk "Success"
    "Relevant topic already exists in kafka, bypassing creation POST request."

/-- The empty-fetch warning of lines 363-366. -/
def noEntriesReport : StepReport :=
  StepReport.mk "Warning" "No entries found, aborting POST request"

/-- The all-cached warning of lines 370-375. -/
def allPresentReport : StepReport :=
  StepReport.mk "Warning" "All entries already present, aborting POST request"

/-- The `response` dict after `_handle_topic_exists` filled the
`check_topic` slot: `succeeded` false, other slots empty (lines 331-339
plus the mutation through the `requests` alias). -/
def baseResp {R : Type} (checkRep : StepReport) : Response R :=
  Response.mk false (RequestReports.mk (some checkRep) none none) [] none

/-- Fill the `create_topic` slot (line 348 or 352). -/
def setCreateTopic {R : Type} (resp : Response R) (rep : StepReport) : Response R :=
  { resp with requests := { resp.requests with create_topic := some rep } }

/-- Fill the `write_values` slot inside `requests` (line 363 or 370). -/
def setWriteValues {R : Type} (resp : Response R) (rep : StepReport) : Response R :=
  { resp with requests := { resp.requests with write_values := some rep } }

/-- The creation step of lines 347-358: `_post_new_topic` when
`force_post or not topic_exists`, else the bypass report. -/
def createStepOf (net : Network) (topicExists force_post : Bool) :
    Except PyExn StepReport :=
  if force_post || !topicExists then postNewTopic net
  else Except.ok bypassReport

/-- Lines 360-416 of `post`, entered with `resp1` holding the check and
create reports: fetch and filter the batch, short-circuit with a warning
on `None` or an empty filtered list, and otherwise reach the delivery
call of line 391 — which, `requests` having been rebound to
`response["requests"]` at line 340, is an attribute lookup on a dict and
raises `AttributeError` that the `except` clause of line 401 (the same
dict attribute lookup) cannot intercept.  The payload, url and header
construction of lines 378-388 has no observable effect, and lines
392-416 are unreachable. -/
def postFetchStage {R : Type} (src : DataSource R) (cache : Cache)
    (resp1 : Response R) : Except PyExn (Response R) :=
  match getSourceRecords src cache with
  | none => Except.ok (setWriteValues resp1 noEntriesReport)
  | some records =>
    if records.length = 0 then Except.ok (setWriteValues resp1 allPresentReport)
    else Except.error (PyExn.attributeError "request")

/-- Lines 347-358 of `post` plus the fall-through into the fetch stage:
run the creation step, record its report, and return early when an
invoked creation reported `Error` (line 349). -/
def postCreateStage {R : Type} (src : DataSource R) (net : Network)
    (cache : Cache) (base : Response R) (texists force_post : Bool) :
    Except PyExn (Response R) :=
  match createStepOf net texists force_post with
  | Except.error ex => Except.error ex
  | Except.ok createRep =>
    if (force_post || !texists) && (createRep.status == "Error") then
      Except.ok (setCreateTopic base createRep)
    else postFetchStage src cache (setCreateTopic base createRep)

/-- `BackpackDispatcher.post` (lines 302-416).  The returned pair is the
function result (`Except.error` when a Python exception escapes `post`,
`Except.ok` for the json-dumped `response` dict) together with the final
cache state.  The cache commit loop of lines 408-410 is unreachable (see
`postFetchStage`), so the cache component is always the input cache. -/
def post {R : Type} (src : DataSource R) (net : Network) (cache : Cache)
    (ns : String) (force_post : Bool) :
    Except PyExn (Response R) × Cache :=
  match handleTopicExists net (ns ++ "." ++ src.topic_name) with
  | Except.error ex => (Except.error ex, cache)
  | Except.ok (te, checkRep) =>
    match te with
    | none => (Except.ok (baseResp checkRep), cache)
    | some texists =>
      (postCreateStage src net cache (baseResp checkRep) texists force_post,
        cache)

/-- Modelled from the spec: the per-call transport-selection enum of the
publish operation (`NONE | DIRECT_CONNECTION | REST_API`).  The
publisher-selection code itself is not under src — only callers refer to
it (the string `method` field defaulting to "DIRECT_CONNECTION" in
fastapi.py and sources/usgs/schemas.py); `sasquatch.py`'s `post` takes
no such parameter. -/
inductive PublishMethod where
  | NONE : PublishMethod
  | DIRECT_CONNECTION : PublishMethod
  | REST_API : PublishMethod
deriving DecidableEq

/-- Modelled from the spec: the name of a method as rendered in the
"no publisher found for <method>" message. -/
def methodName : PublishMethod → String
  | PublishMethod.NONE => "NONE"
  | PublishMethod.DIRECT_CONNECTION => "DIRECT_CONNECTION"
  | PublishMethod.REST_API => "REST_API"

/-- Modelled from the spec: the publisher registry consulted per call;
`DIRECT_CONNECTION` and `REST_API` each map to their transport handle,
`NONE` has no publisher. -/
def publisherFor {T : Type} (direct rest : T) : PublishMethod → Option T
  | PublishMethod.DIRECT_CONNECTION => some direct
  | PublishMethod.REST_API => some rest
  | PublishMethod.NONE => none

/-- Modelled from the spec: the delivery-relevant slice of a publish
outcome — overall success flag, the `write_values` step report, and the
records actually transmitted. -/
structure PublishOutcome (R : Type) where
  succeeded : Bool
  write_values : StepReport
  records : List R
deriving DecidableEq

/-- Modelled from the spec: dispatch of a filtered batch through the
transport selected by `m`.  With no publisher for `m` the outcome is a
step `Error` "no publisher found for <method>" and nothing is delivered
(never a silent no-op); otherwise the selected transport's report
decides success, and `records` is populated only on `Success`.  The
second component is the list of records handed to a transport. -/
def publishVia {R T : Type} (direct rest : T)
    (deliver : T → List R → StepReport) (batch : List R) (m : PublishMethod) :
    PublishOutcome R × List R :=
  match publisherFor direct rest m with
  | none =>
    (PublishOutcome.mk false
      (StepReport.mk "Error" ("no publisher found for " ++ methodName m)) [],
      [])
  | some t =>
    if (deliver t batch).status == "Success" then
      (PublishOutcome.mk true (deliver t batch) batch, batch)
    else (PublishOutcome.mk false (deliver t batch) [], batch)

/-! ### Concrete fixtures

Small closed instances used by the counterexample-style theorems and the
witnesses: a one-record source, a broker whose management API answers
well-formed bodies, and an empty cache. -/

/-- A one-record source with topic name "t"; records are strings. -/
def exSource : DataSource String :=
  DataSource.mk "t" false ["r0"] (fun _ => "t:r0")

/-- The same source with `uses_redis` enabled. -/
def exSourceRedis : DataSource String :=
  DataSource.mk "t" true ["r0"] (fun _ => "t:r0")

/-- A two-record redis-enabled source. -/
def exSourceTwo : DataSource String :=
  DataSource.mk "t" true ["a", "b"] (fun r => "t:" ++ r)

/-- A source whose fetch returns no records. -/
def exSourceEmpty : DataSource String :=
  DataSource.mk "t" true [] (fun r => "t:" ++ r)

/-- A well-formed `GET /v3/clusters` body with one cluster "c1". -/
def okClustersBody : Json :=
  Json.obj [("data", Json.arr [Json.obj [("cluster_id", Json.str "c1")]])]

/-- A well-formed topics listing carrying the given topic names. -/
def topicsBodyWith (names : List String) : Json :=
  Json.obj [("data",
    Json.arr (names.map (fun n => Json.obj [("topic_name", Json.str n)])))]

/-- A healthy broker on which the topic "ns.t" already exists. -/
def exNet : Network :=
  Network.mk (ReqResult.ok okClustersBody)
    (fun _ => ReqResult.ok (topicsBodyWith ["ns.t"]))
    (fun _ => ReqResult.ok "created")
    (ReqResult.ok "written")

/-- A healthy broker on which no topic exists yet. -/
def exNetNoTopic : Network :=
  Network.mk (ReqResult.ok okClustersBody)
    (fun _ => ReqResult.ok (topicsBodyWith []))
    (fun _ => ReqResult.ok "created")
    (ReqResult.ok "written")

/-- A broker whose cluster listing fails with a connection error. -/
def exNetDown : Network :=
  Network.mk (ReqResult.exn "boom")
    (fun _ => ReqResult.exn "boom")
    (fun _ => ReqResult.exn "boom")
    (ReqResult.exn "boom")

/-- A broker whose 2xx cluster listing lacks the "data" key. -/
def exNetNoData : Network :=
  Network.mk (ReqResult.ok (Json.obj []))
    (fun _ => ReqResult.ok (topicsBodyWith []))
    (fun _ => ReqResult.ok "created")
    (ReqResult.ok "written")

/-- The empty cache. -/
def emptyCache : Cache := fun _ => none

/-- A cache already holding the key of record "a" of `exSourceTwo`. -/
def cacheWithA : Cache := fun k => if k = "t:a" then some "value" else none

/-- A cache already holding the keys of both records of `exSourceTwo`. -/
def cacheWithAB : Cache :=
  fun k => if k = "t:a" || k = "t:b" then some "value" else none

/-! ### Helper lemmas -/

/-- The cache component of `post` is always the input cache: the commit
loop of lines 408-410 is unreachable, so `post` never writes a key. -/
theorem post_cache_unchanged {R : Type} (src : DataSource R) (net : Network)
    (cache : Cache) (ns : String) (f : Bool) :
    (post src net cache ns f).2 = cache := by
  unfold post
  cases hh : handleTopicExists net (ns ++ "." ++ src.topic_name) with
  | error ex => rfl
  | ok p =>
    obtain ⟨te, rep⟩ := p
    cases te <;> rfl

/-- A returned fetch-stage response only changes the `write_values`
slot of its input. -/
theorem postFetchStage_fields {R : Type} {src : DataSource R} {cache : Cache}
    {r1 resp : Response R} (h : postFetchStage src cache r1 = Except.ok resp) :
    resp.succeeded = r1.succeeded ∧ resp.records = r1.records ∧
    resp.requests.check_topic = r1.requests.check_topic ∧
    resp.requests.create_topic = r1.requests.create_topic := by
  unfold postFetchStage at h
  cases hg : getSourceRecords src cache with
  | none =>
    rw [hg] at h
    injection h with h
    subst h
    exact ⟨rfl, rfl, rfl, rfl⟩
  | some records =>
    rw [hg] at h
    dsimp only at h
    by_cases hl : records.length = 0
    · rw [if_pos hl] at h
      injection h with h
      subst h
      exact ⟨rfl, rfl, rfl, rfl⟩
    · rw [if_neg hl] at h
      exact Except.noConfusion h

/-- A returned create-stage response keeps the success flag, records and
`check_topic` slot of its input. -/
theorem postCreateStage_fields {R : Type} {src : DataSource R} {net : Network}
    {cache : Cache} {base resp : Response R} {te f : Bool}
    (h : postCreateStage src net cache base te f = Except.ok resp) :
    resp.succeeded = base.succeeded ∧ resp.records = base.records ∧
    resp.requests.check_topic = base.requests.check_topic := by
  unfold postCreateStage at h
  cases hc : createStepOf net te f with
  | error ex =>
    rw [hc] at h
    exact Except.noConfusion h
  | ok rep =>
    rw [hc] at h
    dsimp only at h
    by_cases hb : ((f || !te) && (rep.status == "Error")) = true
    · rw [if_pos hb] at h
      injection h with h
      subst h
      exact ⟨rfl, rfl, rfl⟩
    · rw [if_neg hb] at h
      obtain ⟨h1, h2, h3, _⟩ := postFetchStage_fields h
      exact ⟨h1, h2, h3⟩

/-- A returned create-stage response keeps the stray top-level
`write_values` key of its input. -/
theorem postCreateStage_toplevel {R : Type} {src : DataSource R} {net : Network}
    {cache : Cache} {base resp : Response R} {te f : Bool}
    (h : postCreateStage src net cache base te f = Except.ok resp) :
    resp.write_values_toplevel = base.write_values_toplevel := by
  unfold postCreateStage at h
  cases hc : createStepOf net te f with
  | error ex =>
    rw [hc] at h
    exact Except.noConfusion h
  | ok rep =>
    rw [hc] at h
    dsimp only at h
    by_cases hb : ((f || !te) && (rep.status == "Error")) = true
    · rw [if_pos hb] at h
      injection h with h
      subst h
      rfl
    · rw [if_neg hb] at h
      unfold postFetchStage at h
      cases hg : getSourceRecords src cache with
      | none =>
        rw [hg] at h
        injection h with h
        subst h
        rfl
      | some records =>
        rw [hg] at h
        dsimp only at h
        by_cases hl : records.length = 0
        · rw [if_pos hl] at h
          injection h with h
          subst h
          rfl
        · rw [if_neg hl] at h
          exact Except.noConfusion h

/-- Whenever `post` returns a response at all, that response still has
`succeeded = false`, an empty `records` list and no stray top-level
`write_values` key: lines 412-416 never execute. -/
theorem post_ok_shape {R : Type} {src : DataSource R} {net : Network}
    {cache : Cache} {ns : String} {f : Bool} {resp : Response R}
    (h : (post src net cache ns f).1 = Except.ok resp) :
    resp.succeeded = false ∧ resp.records = [] ∧
    resp.write_values_toplevel = none := by
  unfold post at h
  cases hh : handleTopicExists net (ns ++ "." ++ src.topic_name) with
  | error ex =>
    rw [hh] at h
    exact Except.noConfusion h
  | ok p =>
    obtain ⟨te, rep⟩ := p
    rw [hh] at h
    cases te with
    | none =>
      have h2 : Except.ok (baseResp rep) = Except.ok resp := h
      injection h2 with h3
      subst h3
      exact ⟨rfl, rfl, rfl⟩
    | some texists =>
      have h2 : postCreateStage src net cache (baseResp rep) texists f =
          Except.ok resp := h
      obtain ⟨h1, hr, _⟩ := postCreateStage_fields h2
      exact ⟨h1, hr, postCreateStage_toplevel h2⟩

/-- Unfolding `post` once the topic check produced a boolean. -/
theorem post_of_check {R : Type} (src : DataSource R) (net : Network)
    (cache : Cache) (ns : String) (f : Bool) {te : Bool} {rep : StepReport}
    (h : handleTopicExists net (ns ++ "." ++ src.topic_name) =
      Except.ok (some te, rep)) :
    post src net cache ns f =
      (postCreateStage src net cache (baseResp rep) te f, cache) := by
  unfold post
  rw [h]

/-- Unfolding `post` when the topic check surfaced a request error as a
string: the returned response carries only the `Error` check report. -/
theorem post_of_check_error {R : Type} (src : DataSource R) (net : Network)
    (cache : Cache) (ns : String) (f : Bool) {s : String}
    (h : getTopicExists net (ns ++ "." ++ src.topic_name) =
      Except.ok (Sum.inr s)) :
    post src net cache ns f =
      (Except.ok (baseResp
        (StepReport.mk "Error" ("Topic check failed: \n" ++ s))), cache) := by
  unfold post handleTopicExists
  rw [h]

/-- `pyEqStr` holds exactly for the matching string value. -/
theorem pyEqStr_eq_true_iff {v : Json} {s : String} :
    pyEqStr v s = true ↔ v = Json.str s := by
  cases v <;> simp [pyEqStr]

/-- Semantics of the `any` generator of line 186: when it completes
without raising, it reports whether some listed topic has the name. -/
theorem anyTopicMatches_ok_iff {ts : List Json} {fq : String} {b : Bool}
    (h : anyTopicMatches ts fq = Except.ok b) :
    b = true ↔ ∃ t ∈ ts, t.getStr "topic_name" = Except.ok (Json.str fq) := by
  induction ts generalizing b with
  | nil =>
    unfold anyTopicMatches at h
    injection h with h
    subst h
    simp
  | cons t rest ih =>
    unfold anyTopicMatches at h
    cases hg : t.getStr "topic_name" with
    | error e =>
      rw [hg] at h
      exact Except.noConfusion h
    | ok v =>
      rw [hg] at h
      dsimp only at h
      by_cases hv : pyEqStr v fq = true
      · rw [if_pos hv] at h
        injection h with h
        subst h
        refine ⟨fun _ => ⟨t, List.mem_cons_self t rest, ?_⟩, fun _ => rfl⟩
        rw [hg, pyEqStr_eq_true_iff.mp hv]
      · rw [if_neg hv] at h
        rw [ih h]
        constructor
        · rintro ⟨t2, ht2, he⟩
          exact ⟨t2, List.mem_cons_of_mem t ht2, he⟩
        · rintro ⟨t2, ht2, he⟩
          rcases List.mem_cons.mp ht2 with h3 | hmem
          · subst h3
            rw [hg] at he
            injection he with he
            exact absurd (pyEqStr_eq_true_iff.mpr he) hv
          · exact ⟨t2, hmem, he⟩

/-- A `KeyError`, `IndexError` or `TypeError` raised inside the topic
check travels through `post` uncaught. -/
theorem post_raises_of_check_raises {R : Type} (src : DataSource R)
    (net : Network) (cache : Cache) (ns : String) (f : Bool) {ex : PyExn}
    (h : getTopicExists net (ns ++ "." ++ src.topic_name) = Except.error ex) :
    (post src net cache ns f).1 = Except.error ex := by
  unfold post handleTopicExists
  rw [h]

/-- A missing dict key raises `KeyError` out of the subscript. -/
theorem getStr_obj_none {fields : List (String × Json)} {k : String}
    (h : fields.lookup k = none) :
    Json.getStr (Json.obj fields) k = Except.error (PyExn.keyError k) := by
  unfold Json.getStr
  dsimp only
  rw [h]

/-- A raising `["data"]` subscript propagates out of the cluster-id
extraction. -/
theorem clusterIdOf_raises_data {body : Json} {ex : PyExn}
    (h : body.getStr "data" = Except.error ex) :
    clusterIdOf body = Except.error ex := by
  unfold clusterIdOf
  rw [h]

/-- A raising `[0]` subscript propagates out of the cluster-id
extraction. -/
theorem clusterIdOf_raises_idx {body d : Json} {ex : PyExn}
    (h1 : body.getStr "data" = Except.ok d)
    (h2 : d.getIdx 0 = Except.error ex) :
    clusterIdOf body = Except.error ex := by
  unfold clusterIdOf
  rw [h1]
  dsimp only
  rw [h2]

/-- A first cluster entry without a `"cluster_id"` key raises
`KeyError` out of the cluster-id extraction. -/
theorem clusterIdOf_raises_key {body d : Json} {f0 : List (String × Json)}
    (h1 : body.getStr "data" = Except.ok d)
    (h2 : d.getIdx 0 = Except.ok (Json.obj f0))
    (h3 : f0.lookup "cluster_id" = none) :
    clusterIdOf body = Except.error (PyExn.keyError "cluster_id") := by
  unfold clusterIdOf
  rw [h1]
  dsimp only
  rw [h2]
  dsimp only
  exact getStr_obj_none h3

/-- A raising cluster-id extraction propagates out of the topic check. -/
theorem getTopicExists_raises_cluster {net : Network} {fq : String}
    {body : Json} {ex : PyExn} (hc : net.clusters = ReqResult.ok body)
    (h : clusterIdOf body = Except.error ex) :
    getTopicExists net fq = Except.error ex := by
  unfold getTopicExists
  rw [hc]
  dsimp only
  rw [h]

/-- A raising cluster-id extraction propagates out of topic creation. -/
theorem postNewTopic_raises_cluster {net : Network} {body : Json} {ex : PyExn}
    (hc : net.clusters = ReqResult.ok body)
    (h : clusterIdOf body = Except.error ex) :
    postNewTopic net = Except.error ex := by
  unfold postNewTopic
  rw [hc]
  dsimp only
  rw [h]

/-- A raising subscript on an examined topic entry propagates out of
the `any` generator. -/
theorem anyTopicMatches_raises_head {t : Json} {rest : List Json}
    {fq : String} {ex : PyExn} (h : t.getStr "topic_name" = Except.error ex) :
    anyTopicMatches (t :: rest) fq = Except.error ex := by
  unfold anyTopicMatches
  rw [h]

/-- A raising topics scan propagates out of the topic check. -/
theorem getTopicExists_raises_topics {net : Network} {fq : String}
    {body cid tbody : Json} {ts : List Json} {ex : PyExn}
    (hc : net.clusters = ReqResult.ok body)
    (hcid : clusterIdOf body = Except.ok cid)
    (ht : net.topics cid = ReqResult.ok tbody)
    (htd : tbody.getStr "data" = Except.ok (Json.arr ts))
    (ham : anyTopicMatches ts fq = Except.error ex) :
    getTopicExists net fq = Except.error ex := by
  unfold getTopicExists
  rw [hc]
  dsimp only
  rw [hcid]
  dsimp only
  rw [ht]
  dsimp only
  rw [htd]
  dsimp only
  rw [show pyIter (Json.arr ts) = Except.ok ts from rfl]
  dsimp only
  rw [ham]

/-! ### Claims -/

/-- C1: the specification promises that a `post` invocation whose topic
check succeeds, whose topic creation is bypassed (the topic exists),
whose filtering leaves a non-empty batch, and whose delivery POST would
succeed, returns `succeeded=true` with a `Success` `write_values` report
inside `requests` and the delivered batch in `records`.  The code cannot
produce that outcome: the local name `requests` is rebound to
`response["requests"]` at line 340, so the delivery call of line 391
raises `AttributeError` before any POST occurs — shown here on a healthy
broker already carrying the topic, a one-record source and an empty
cache (moreover lines 402-416 would write the success report to the
top-level `response` key and never set `succeeded` or `records`). -/
theorem post_success_path_raises :
    (post exSource exNet emptyCache "ns" false).1 =
      Except.error (PyExn.attributeError "request") := by rfl

/-- C2: the specification says every transport-layer failure inside
`post` is converted to a structured step report and no raw exception
escapes.  In fact every invocation that reaches the delivery step raises
`AttributeError` out of `post` — even with every network call healthy —
because line 340 rebinds `requests` to the report dict, so line 391 is a
dict attribute lookup and the `except requests.RequestException` clause
of line 401 cannot match.  Shown here on a healthy broker without the
topic (creation succeeds) and a redis-enabled one-record source with an
empty cache. -/
theorem post_raw_exception_escapes :
    (post exSourceRedis exNetNoTopic emptyCache "ns" false).1 =
      Except.error (PyExn.attributeError "request") := by rfl

/-- C3: for a redis-enabled source, the candidate batch after filtering
is exactly the fetched records whose derived key is absent from the
cache, and any record with a cached key is excluded both from the batch
`post` would deliver and from the `records` list of every outcome `post`
returns. -/
theorem cached_records_excluded {R : Type} (src : DataSource R) (cache : Cache)
    (h : src.uses_redis = true) :
    (∀ l, getSourceRecords src cache = some l →
      l = src.get_records.filter
        (fun r => (cache (src.get_redis_key r)).isNone)) ∧
    (∀ net ns f resp, (post src net cache ns f).1 = Except.ok resp →
      ∀ r ∈ resp.records, cache (src.get_redis_key r) = none) := by
  constructor
  · intro l hl
    unfold getSourceRecords at hl
    by_cases he : src.get_records.length = 0
    · rw [if_pos he] at hl
      exact Option.noConfusion hl
    · rw [if_neg he, h] at hl
      simp only [Bool.not_true] at hl
      rw [if_neg (by simp)] at hl
      injection hl with hl
      exact hl.symm
  · intro net ns f resp hr r hmem
    obtain ⟨_, hrec, _⟩ := post_ok_shape hr
    rw [hrec] at hmem
    exact absurd hmem (List.not_mem_nil r)

/-- C3 witness: on the two-record source with record "a" already
cached, the filtered batch is exactly `["b"]`. -/
theorem cached_records_excluded_witness :
    (["b"] : List String) = exSourceTwo.get_records.filter
      (fun r => (cacheWithA (exSourceTwo.get_redis_key r)).isNone) :=
  (cached_records_excluded exSourceTwo cacheWithA rfl).1 ["b"] rfl

/-- C6: when the topic-existence check surfaces a connectivity error as
a string, `post` returns an outcome with `succeeded=false`, a
`check_topic` report with status `Error`, empty `create_topic` and
`write_values` slots, an empty `records` list, and an unchanged cache —
no topic creation and no delivery is attempted. -/
theorem check_error_aborts {R : Type} (src : DataSource R) (net : Network)
    (cache : Cache) (ns : String) (f : Bool) (s : String)
    (h : getTopicExists net (ns ++ "." ++ src.topic_name) =
      Except.ok (Sum.inr s)) :
    post src net cache ns f =
      (Except.ok (Response.mk false
        (RequestReports.mk
          (some (StepReport.mk "Error" ("Topic check failed: \n" ++ s)))
          none none) [] none), cache) :=
  post_of_check_error src net cache ns f h

/-- C6 witness: a broker whose cluster listing fails with a connection
error produces exactly the `Error` check report and nothing else. -/
theorem check_error_aborts_witness :
    post exSourceRedis exNetDown emptyCache "ns" false =
      (Except.ok (Response.mk false
        (RequestReports.mk
          (some (StepReport.mk "Error"
            ("Topic check failed: \n" ++ "Error getting cluster ID: boom")))
          none none) [] none), emptyCache) :=
  check_error_aborts exSourceRedis exNetDown emptyCache "ns" false
    "Error getting cluster ID: boom" rfl

/-- C7: for a source with `uses_redis=false` the candidate batch is the
full fetched batch whatever the cache holds (the cache is not consulted:
the filter result does not depend on it), and the cache state after
`post` equals the cache state before (no keys are written). -/
theorem redis_disabled_passthrough {R : Type} (src : DataSource R)
    (h : src.uses_redis = false) :
    (∀ cache : Cache, src.get_records ≠ [] →
      getSourceRecords src cache = some src.get_records) ∧
    (∀ cache cache2 : Cache,
      getSourceRecords src cache = getSourceRecords src cache2) ∧
    (∀ (net : Network) (cache : Cache) (ns : String) (f : Bool),
      (post src net cache ns f).2 = cache) := by
  refine ⟨?_, ?_, ?_⟩
  · intro cache hne
    have hl : ¬src.get_records.length = 0 := by
      intro h0
      exact hne (List.length_eq_zero.mp h0)
    unfold getSourceRecords
    rw [if_neg hl, h]
    rfl
  · intro cache cache2
    by_cases hl : src.get_records.length = 0
    · unfold getSourceRecords
      rw [if_pos hl, if_pos hl]
    · unfold getSourceRecords
      rw [if_neg hl, if_neg hl, h]
      rfl
  · intro net cache ns f
    exact post_cache_unchanged src net cache ns f

/-- C7 witness: the redis-disabled one-record source passes its batch
through even against a cache holding every key, and `post` on a healthy
broker leaves that cache untouched. -/
theorem redis_disabled_passthrough_witness :
    getSourceRecords exSource cacheWithAB = some exSource.get_records ∧
    (post exSource exNet cacheWithAB "ns" false).2 = cacheWithAB :=
  ⟨(redis_disabled_passthrough exSource rfl).1 cacheWithAB (by decide),
    (redis_disabled_passthrough exSource rfl).2.2 exNet cacheWithAB "ns" false⟩

/-- C4: under a passed topic check and a non-error creation step, an
empty fetch yields the "No entries found" `Warning` on `write_values`
with `succeeded=false`, empty `records` and an unchanged cache; a fetch
whose records are all already cached yields the "All entries already
present" `Warning` likewise; and the delivery transport is never
invoked: the result of `post` does not depend on the delivery oracle. -/
theorem short_circuit_warnings {R : Type} (src : DataSource R)
    (net : Network) (cache : Cache) (ns : String) (f : Bool)
    (texists : Bool) (checkRep createRep : StepReport)
    (hcheck : handleTopicExists net (ns ++ "." ++ src.topic_name) =
      Except.ok (some texists, checkRep))
    (hcreate : createStepOf net texists f = Except.ok createRep)
    (hnoerr : createRep.status ≠ "Error") :
    (src.get_records = [] →
      post src net cache ns f =
        (Except.ok (Response.mk false
          (RequestReports.mk (some checkRep) (some createRep)
            (some noEntriesReport)) [] none), cache)) ∧
    (src.uses_redis = true → src.get_records ≠ [] →
      src.get_records.filter
        (fun r => (cache (src.get_redis_key r)).isNone) = [] →
      post src net cache ns f =
        (Except.ok (Response.mk false
          (RequestReports.mk (some checkRep) (some createRep)
            (some allPresentReport)) [] none), cache)) ∧
    (∀ w, post src (Network.mk net.clusters net.topics net.createTopic w)
        cache ns f = post src net cache ns f) := by
  have hs : (createRep.status == "Error") = false :=
    beq_eq_false_iff_ne.mpr hnoerr
  have hcond : ¬(((f || !texists) && (createRep.status == "Error")) = true) := by
    rw [hs, Bool.and_false]
    exact Bool.false_ne_true
  have hpost : post src net cache ns f =
      (postFetchStage src cache
        (setCreateTopic (baseResp checkRep) createRep), cache) := by
    rw [post_of_check src net cache ns f hcheck]
    unfold postCreateStage
    rw [hcreate]
    dsimp only
    rw [if_neg hcond]
  refine ⟨?_, ?_, ?_⟩
  · intro hempty
    have hg : getSourceRecords src cache = none := by
      unfold getSourceRecords
      rw [hempty]
      rfl
    rw [hpost]
    unfold postFetchStage
    rw [hg]
    rfl
  · intro hredis hne hfilter
    have hl : ¬src.get_records.length = 0 := fun h0 =>
      hne (List.length_eq_zero.mp h0)
    have hg : getSourceRecords src cache = some [] := by
      unfold getSourceRecords
      rw [if_neg hl, hredis]
      simp only [Bool.not_true]
      rw [if_neg (by simp), hfilter]
    rw [hpost]
    unfold postFetchStage
    rw [hg]
    rfl
  · intro w
    rfl

/-- C4 witness: on a healthy broker carrying the topic, the empty-fetch
source produces exactly the "No entries found" warning response. -/
theorem short_circuit_warnings_witness :
    post exSourceEmpty exNet emptyCache "ns" false =
      (Except.ok (Response.mk false
        (RequestReports.mk
          (some (StepReport.mk "Success"
            "Sasquatch backpack found \"ns.t\" on remote."))
          (some bypassReport) (some noEntriesReport)) [] none), emptyCache) :=
  (short_circuit_warnings exSourceEmpty exNet emptyCache "ns" false true
    (StepReport.mk "Success" "Sasquatch backpack found \"ns.t\" on remote.")
    bypassReport rfl rfl (by decide)).1 rfl

/-- C5: after a passed topic check, topic creation is invoked exactly
when the topic was reported absent or `force_post` was set: when the
topic exists and `force_post` is false, every returned outcome carries
the bypass `Success` report on `create_topic` and the result of `post`
does not depend on the creation oracle at all; when creation is
required, every returned outcome carries the report produced by
`_post_new_topic`. -/
theorem create_topic_gating {R : Type} (src : DataSource R) (net : Network)
    (cache : Cache) (ns : String) (texists : Bool) (checkRep : StepReport)
    (hcheck : handleTopicExists net (ns ++ "." ++ src.topic_name) =
      Except.ok (some texists, checkRep)) :
    (texists = true →
      (∀ resp, (post src net cache ns false).1 = Except.ok resp →
        resp.requests.create_topic = some bypassReport) ∧
      (∀ g, post src (Network.mk net.clusters net.topics g net.writeValues)
          cache ns false = post src net cache ns false)) ∧
    (∀ (f : Bool) (r : StepReport), (f = true ∨ texists = false) →
      postNewTopic net = Except.ok r →
      ∀ resp, (post src net cache ns f).1 = Except.ok resp →
        resp.requests.create_topic = some r) := by
  constructor
  · intro ht
    subst ht
    constructor
    · intro resp hresp
      rw [post_of_check src net cache ns false hcheck] at hresp
      have h2 : postFetchStage src cache
          (setCreateTopic (baseResp checkRep) bypassReport) =
          Except.ok resp := hresp
      obtain ⟨_, _, _, h4⟩ := postFetchStage_fields h2
      rw [h4]
      rfl
    · intro g
      have hcheck2 : handleTopicExists
          (Network.mk net.clusters net.topics g net.writeValues)
          (ns ++ "." ++ src.topic_name) =
          Except.ok (some true, checkRep) := hcheck
      rw [post_of_check src (Network.mk net.clusters net.topics g
        net.writeValues) cache ns false hcheck2,
        post_of_check src net cache ns false hcheck]
      rfl
  · intro f r hforce hr resp hresp
    have hcond : (f || !texists) = true := by
      rcases hforce with h1 | h1
      · rw [h1, Bool.true_or]
      · rw [h1, Bool.not_false, Bool.or_true]
    rw [post_of_check src net cache ns f hcheck] at hresp
    have h2 : postCreateStage src net cache (baseResp checkRep) texists f =
        Except.ok resp := hresp
    unfold postCreateStage createStepOf at h2
    rw [if_pos hcond, hr] at h2
    dsimp only at h2
    by_cases hb : ((f || !texists) && (r.status == "Error")) = true
    · rw [if_pos hb] at h2
      injection h2 with h2
      subst h2
      rfl
    · rw [if_neg hb] at h2
      obtain ⟨_, _, _, h4⟩ := postFetchStage_fields h2
      rw [h4]
      rfl

/-- C5 witness: on a healthy broker already carrying the topic, the
outcome returned for the empty-fetch source carries the bypass report
on `create_topic`. -/
theorem create_topic_gating_witness :
    (Response.mk false
      (RequestReports.mk
        (some (StepReport.mk "Success"
          "Sasquatch backpack found \"ns.t\" on remote."))
        (some bypassReport) (some noEntriesReport)) ([] : List String)
      none).requests.create_topic = some bypassReport :=
  ((create_topic_gating exSourceEmpty exNet emptyCache "ns" true
    (StepReport.mk "Success" "Sasquatch backpack found \"ns.t\" on remote.")
    rfl).1 rfl).1
    (Response.mk false
      (RequestReports.mk
        (some (StepReport.mk "Success"
          "Sasquatch backpack found \"ns.t\" on remote."))
        (some bypassReport) (some noEntriesReport)) [] none) rfl

/-- C8: `_get_topic_exists` surfaces a `RequestException` from the
cluster lookup as the string "Error getting cluster ID: ...", surfaces a
`RequestException` from the topics listing as the string "Error Creating
Topic during POST: ...", and otherwise returns a boolean that is true
exactly when some listed topic's `topic_name` equals the fully-qualified
name. -/
theorem topic_exists_check_reports (net : Network) (fq : String) :
    (∀ e, net.clusters = ReqResult.exn e →
      getTopicExists net fq =
        Except.ok (Sum.inr ("Error getting cluster ID: " ++ e))) ∧
    (∀ body cid e, net.clusters = ReqResult.ok body →
      clusterIdOf body = Except.ok cid → net.topics cid = ReqResult.exn e →
      getTopicExists net fq =
        Except.ok (Sum.inr ("Error Creating Topic during POST: " ++ e))) ∧
    (∀ body cid tbody ts b, net.clusters = ReqResult.ok body →
      clusterIdOf body = Except.ok cid → net.topics cid = ReqResult.ok tbody →
      tbody.getStr "data" = Except.ok (Json.arr ts) →
      anyTopicMatches ts fq = Except.ok b →
      getTopicExists net fq = Except.ok (Sum.inl b) ∧
        (b = true ↔ ∃ t ∈ ts,
          t.getStr "topic_name" = Except.ok (Json.str fq))) := by
  refine ⟨?_, ?_, ?_⟩
  · intro e hc
    unfold getTopicExists
    rw [hc]
  · intro body cid e hc hcid ht
    unfold getTopicExists
    rw [hc]
    dsimp only
    rw [hcid]
    dsimp only
    rw [ht]
  · intro body cid tbody ts b hc hcid ht htd ham
    refine ⟨?_, anyTopicMatches_ok_iff ham⟩
    unfold getTopicExists
    rw [hc]
    dsimp only
    rw [hcid]
    dsimp only
    rw [ht]
    dsimp only
    rw [htd]
    dsimp only
    rw [show pyIter (Json.arr ts) = Except.ok ts from rfl]
    dsimp only
    rw [ham]

/-- C8 witness: the broken broker yields the cluster-lookup error
string; the healthy broker carrying "ns.t" yields `true`. -/
theorem topic_exists_check_reports_witness :
    getTopicExists exNetDown "ns.t" =
      Except.ok (Sum.inr ("Error getting cluster ID: " ++ "boom")) ∧
    getTopicExists exNet "ns.t" = Except.ok (Sum.inl true) :=
  ⟨(topic_exists_check_reports exNetDown "ns.t").1 "boom" rfl,
    ((topic_exists_check_reports exNet "ns.t").2.2 okClustersBody
      (Json.str "c1") (topicsBodyWith ["ns.t"])
      [Json.obj [("topic_name", Json.str "ns.t")]] true
      rfl rfl rfl rfl rfl).1⟩

/-- C9: the publish operation's transport selection (modelled from the
spec) is an explicit enum; selecting a method with no registered
publisher yields a step `Error` report "no publisher found for
<method>" with nothing delivered, never a silent no-op, and the only
such method among the enum's values is `NONE`. -/
theorem no_publisher_selected_is_error {R T : Type} (direct rest : T)
    (deliver : T → List R → StepReport) (batch : List R) (m : PublishMethod)
    (h : publisherFor direct rest m = none) :
    publishVia direct rest deliver batch m =
      (PublishOutcome.mk false
        (StepReport.mk "Error" ("no publisher found for " ++ methodName m))
        [], []) ∧
    m = PublishMethod.NONE := by
  constructor
  · unfold publishVia
    rw [h]
  · cases m with
    | NONE => rfl
    | DIRECT_CONNECTION => exact Option.noConfusion h
    | REST_API => exact Option.noConfusion h

/-- C9 witness: selecting `NONE` against two registered transports
produces exactly the error outcome and delivers nothing. -/
theorem no_publisher_selected_is_error_witness :
    publishVia (0 : Nat) 1 (fun _ _ => StepReport.mk "Success" "ok")
      ([2] : List Nat) PublishMethod.NONE =
      (PublishOutcome.mk false
        (StepReport.mk "Error"
          ("no publisher found for " ++ methodName PublishMethod.NONE)) [],
        []) ∧
    PublishMethod.NONE = PublishMethod.NONE :=
  no_publisher_selected_is_error 0 1 (fun _ _ => StepReport.mk "Success" "ok")
    [2] PublishMethod.NONE rfl

/-- C10: only `requests.RequestException` is converted to a string or
`Error` report by the topic check and topic creation; a 2xx broker body
missing the "data" key, an empty cluster list, a first cluster entry
without "cluster_id", or a listed topic entry without "topic_name" makes
the corresponding `KeyError`/`IndexError` escape `post` uncaught instead
of being reported in the structured outcome. -/
theorem malformed_broker_body_raises {R : Type} :
    (∀ (src : DataSource R) (net : Network) (cache : Cache) (ns : String)
      (f : Bool) (fields : List (String × Json)),
      net.clusters = ReqResult.ok (Json.obj fields) →
      fields.lookup "data" = none →
      (post src net cache ns f).1 = Except.error (PyExn.keyError "data") ∧
        postNewTopic net = Except.error (PyExn.keyError "data")) ∧
    (∀ (src : DataSource R) (net : Network) (cache : Cache) (ns : String)
      (f : Bool) (body : Json),
      net.clusters = ReqResult.ok body →
      body.getStr "data" = Except.ok (Json.arr []) →
      (post src net cache ns f).1 = Except.error PyExn.indexError ∧
        postNewTopic net = Except.error PyExn.indexError) ∧
    (∀ (src : DataSource R) (net : Network) (cache : Cache) (ns : String)
      (f : Bool) (body d : Json) (f0 : List (String × Json)),
      net.clusters = ReqResult.ok body →
      body.getStr "data" = Except.ok d →
      d.getIdx 0 = Except.ok (Json.obj f0) →
      f0.lookup "cluster_id" = none →
      (post src net cache ns f).1 =
        Except.error (PyExn.keyError "cluster_id")) ∧
    (∀ (src : DataSource R) (net : Network) (cache : Cache) (ns : String)
      (f : Bool) (body cid tbody : Json) (tf : List (String × Json))
      (rest : List Json),
      net.clusters = ReqResult.ok body →
      clusterIdOf body = Except.ok cid →
      net.topics cid = ReqResult.ok tbody →
      tbody.getStr "data" = Except.ok (Json.arr (Json.obj tf :: rest)) →
      tf.lookup "topic_name" = none →
      (post src net cache ns f).1 =
        Except.error (PyExn.keyError "topic_name")) := by
  refine ⟨?_, ?_, ?_, ?_⟩
  · intro src net cache ns f fields hc hd
    have hcid : clusterIdOf (Json.obj fields) =
        Except.error (PyExn.keyError "data") :=
      clusterIdOf_raises_data (getStr_obj_none hd)
    exact ⟨post_raises_of_check_raises src net cache ns f
        (getTopicExists_raises_cluster hc hcid),
      postNewTopic_raises_cluster hc hcid⟩
  · intro src net cache ns f body hc hd
    have hcid : clusterIdOf body = Except.error PyExn.indexError :=
      clusterIdOf_raises_idx hd rfl
    exact ⟨post_raises_of_check_raises src net cache ns f
        (getTopicExists_raises_cluster hc hcid),
      postNewTopic_raises_cluster hc hcid⟩
  · intro src net cache ns f body d f0 hc hd hidx hkey
    exact post_raises_of_check_raises src net cache ns f
      (getTopicExists_raises_cluster hc (clusterIdOf_raises_key hd hidx hkey))
  · intro src net cache ns f body cid tbody tf rest hc hcid ht htd hk
    exact post_raises_of_check_raises src net cache ns f
      (getTopicExists_raises_topics hc hcid ht htd
        (anyTopicMatches_raises_head (getStr_obj_none hk)))

/-- C10 witness: a 2xx cluster body without the "data" key makes
`KeyError` escape `post` and `_post_new_topic`. -/
theorem malformed_broker_body_raises_witness :
    (post exSourceRedis exNetNoData emptyCache "ns" false).1 =
      Except.error (PyExn.keyError "data") ∧
    postNewTopic exNetNoData = Except.error (PyExn.keyError "data") :=
  (@malformed_broker_body_raises String).1 exSourceRedis exNetNoData
    emptyCache "ns" false [] rfl rfl

end SasquatchBackpack
